import Mathlib

/-!
Verification of the multi-agent RL controller (`src/agent_system.py`) and the
training loop (`src/run.py`) of the SUMO longitudinal-controller repository.

The transition store (`ReplayBuffer`, in `replay_buffer.py`, which is not part
of the sources provided under `src/`) is modelled from the spec (spec.md §3,
§4.1): preallocated parallel arrays of length `capacity`, a write cursor
`idx`, and a `full` flag that is set the first time the cursor wraps.  The
six parallel-array field names (`obses`, `next_obses`, `actions`, `rewards`,
`not_dones`, `not_dones_no_max`) are the names under which
`agent_system.py:188-195` saves them, so they are fixed by `src/` itself.

Scalar observation/action/reward entries are modelled as `Int` (the claims
under consideration do not depend on the numeric carrier), and the stored
`not_done` / `not_done_no_max` cells as `Bool` (the store writes the boolean
`not done`, per spec §3 the arrays hold the negated done flags).

Adapter parameter / optimizer serialization (`torch.save` / `torch.load`
state dicts) is external floating-point tensor state and is outside the store
model; the claims below concern the stores, the returned step counter, the
act-mode scoping and the training loop.
-/

/-- Arguments of one `ReplayBuffer.add` call: one interaction record
(spec.md §3 "Transition").  `done` / `done_no_max` are the flags passed to
`add`; the store itself keeps their negations. -/
structure Transition where
  obs : Int
  action : Int
  reward : Int
  next_obs : Int
  done : Bool
  done_no_max : Bool
deriving DecidableEq, Repr

/-- Modelled from the spec: the Transition Store of `replay_buffer.py`
(spec.md §3, §4.1) — fixed-capacity circular buffer with parallel arrays
each of length `capacity`, a write cursor `idx` starting at 0, and a `full`
flag set the first time the cursor wraps. -/
structure ReplayBuffer where
  capacity : Nat
  obses : List Int
  next_obses : List Int
  actions : List Int
  rewards : List Int
  not_dones : List Bool
  not_dones_no_max : List Bool
  idx : Nat
  full : Bool
deriving DecidableEq, Repr

/-- A fresh store: preallocated arrays of length `capacity`, cursor 0,
not yet full (spec.md §3). -/
def ReplayBuffer.fresh (capacity : Nat) : ReplayBuffer where
  capacity := capacity
  obses := List.replicate capacity 0
  next_obses := List.replicate capacity 0
  actions := List.replicate capacity 0
  rewards := List.replicate capacity 0
  not_dones := List.replicate capacity false
  not_dones_no_max := List.replicate capacity false
  idx := 0
  full := false

/-- Modelled from the spec: `ReplayBuffer.add` (spec.md §4.1) — writes into
the current cursor slot (the stored done cells are the negations `not done`,
`not done_no_max`, spec.md §3), advances the cursor modulo capacity, and sets
`full` the first time the cursor wraps. -/
def ReplayBuffer.add (b : ReplayBuffer) (obs action reward next_obs : Int)
    (done done_no_max : Bool) : ReplayBuffer where
  capacity := b.capacity
  obses := b.obses.set b.idx obs
  next_obses := b.next_obses.set b.idx next_obs
  actions := b.actions.set b.idx action
  rewards := b.rewards.set b.idx reward
  not_dones := b.not_dones.set b.idx (!done)
  not_dones_no_max := b.not_dones_no_max.set b.idx (!done_no_max)
  idx := (b.idx + 1) % b.capacity
  full := b.full || ((b.idx + 1) % b.capacity == 0)

/-- `add` applied to a bundled transition record. -/
def ReplayBuffer.addT (b : ReplayBuffer) (t : Transition) : ReplayBuffer :=
  b.add t.obs t.action t.reward t.next_obs t.done t.done_no_max

/-- A sequence of insertions through the store's normal `add` path,
in list order. -/
def ReplayBuffer.addList (b : ReplayBuffer) (ts : List Transition) : ReplayBuffer :=
  ts.foldl ReplayBuffer.addT b

/-- Modelled from the spec: `ReplayBuffer.size` (spec.md §4.1) — `capacity`
if `full` else the cursor. -/
def ReplayBuffer.size (b : ReplayBuffer) : Nat :=
  if b.full then b.capacity else b.idx

/-- The contents of one saved replay-archive file (`np.savez`,
`agent_system.py:188-195` and `290-297`): the six raw parallel arrays,
and nothing else — in particular no cursor and no full flag. -/
structure SavedArrays where
  obses : List Int
  next_obses : List Int
  actions : List Int
  rewards : List Int
  not_dones : List Bool
  not_dones_no_max : List Bool
deriving DecidableEq, Repr

/-- `np.savez` of a store's raw arrays (`agent_system.py:188-195`). -/
def ReplayBuffer.savez (b : ReplayBuffer) : SavedArrays where
  obses := b.obses
  next_obses := b.next_obses
  actions := b.actions
  rewards := b.rewards
  not_dones := b.not_dones
  not_dones_no_max := b.not_dones_no_max

/-- One iteration of the load loop body (`agent_system.py:135-147` /
`325-337`): read row `i` of each saved array and rebuild the `add` arguments
with `done = not not_done`, `done_no_max = not not_done_no_max`.  `none`
models the `IndexError` numpy raises when `i` is out of range. -/
def SavedArrays.readRow (d : SavedArrays) (i : Nat) : Option Transition :=
  match d.obses.get? i, d.next_obses.get? i, d.actions.get? i, d.rewards.get? i,
      d.not_dones.get? i, d.not_dones_no_max.get? i with
  | some obs, some next_obs, some action, some reward, some not_done, some not_done_no_max =>
      some ⟨obs, action, reward, next_obs, !not_done, !not_done_no_max⟩
  | _, _, _, _, _, _ => none

/-- The load loop `for i in range(step)` (`agent_system.py:133-147` /
`323-337`), started at row `i` with `k` iterations left: each surviving row
goes through the store's normal `add`; a row read past the end of the saved
arrays aborts the whole load (uncaught `IndexError`), modelled as `none`. -/
def SavedArrays.replay (d : SavedArrays) : Nat → Nat → ReplayBuffer → Option ReplayBuffer
  | _, 0, b => some b
  | i, k + 1, b =>
      match d.readRow i with
      | some t => SavedArrays.replay d (i + 1) k (b.addT t)
      | none => none

/-- The list of transitions the load loop would replay: rows `i`, `i+1`, …
(`k` of them), in original order; `none` if any row is out of range. -/
def SavedArrays.rows (d : SavedArrays) : Nat → Nat → Option (List Transition)
  | _, 0 => some []
  | i, k + 1 =>
      match d.readRow i with
      | some t => (SavedArrays.rows d (i + 1) k).map (fun l => t :: l)
      | none => none

/-- Overwrite consecutive slots `i`, `i+1`, … of `l` with the elements of
`xs` (what `k` successive cursor writes do while the cursor does not wrap). -/
def writeSeq : List α → Nat → List α → List α
  | l, _, [] => l
  | l, i, x :: xs => writeSeq (l.set i x) (i + 1) xs

/-- A learning agent (the Agent Adapter of spec.md §4.2): a `training`
behavior flag (the torch module train/eval mode) and a pure policy whose
output may depend on that flag, on the observation and on `sample`. -/
structure Agent where
  training : Bool
  policy : Bool → Int → Bool → Int

/-- `agent.act(obs, sample)`: the adapter acts under its current behavior
flag (spec.md §4.2). -/
def Agent.act (ag : Agent) (obs : Int) (sample : Bool) : Int :=
  ag.policy ag.training obs sample

/-- Modelled from the spec: `utils.eval_mode` (`utils.py` is not under
`src/`; spec.md §4.3 — "scoped acquisition/release"): remember the previous
behavior flag, run the body in evaluation behavior, restore the previous
flag afterwards. -/
def eval_mode (ag : Agent) (body : Agent → Int) : Int × Agent :=
  let prev := ag.training
  let inner : Agent := { ag with training := false }
  (body inner, { inner with training := prev })

/-- Modelled from the spec: `utils.train_mode`, the symmetric
training-behavior scoping (spec.md §4.3). -/
def train_mode (ag : Agent) (body : Agent → Int) : Int × Agent :=
  let prev := ag.training
  let inner : Agent := { ag with training := true }
  (body inner, { inner with training := prev })

/-- The ways an `act` call can abort: the explicit
`raise Exception("ERROR: NO VALID ACTING MODE!")` of the final `else`
branch (`agent_system.py:91` / `244`, the spec's `InvalidModeError`), and
the `AttributeError` raised when `SharedMultiAgent.act` dereferences the
undefined attribute `self.agents` (`agent_system.py:236`). -/
inductive ActError where
  | invalidMode
  | attributeError
deriving DecidableEq, Repr

/-- `IndividualMultiAgent` (`agent_system.py:39-197`): one adapter and one
store per agent id.  The run `mode` is the config's running mode
(`train` / `eval`). -/
structure IndividualMultiAgent where
  agent_ids : List String
  agents : String → Agent
  replay_buffers : String → ReplayBuffer
  mode : String

/-- `SharedMultiAgent` (`agent_system.py:201-343`): one shared adapter and
one shared store referenced by every agent id. -/
structure SharedMultiAgent where
  agent_ids : List String
  agent : Agent
  replay_buffer : ReplayBuffer
  mode : String

/-- `IndividualMultiAgent.act` (`agent_system.py:72-93`): per agent id, act
inside the requested behavior scope; the actions dict is built in
iteration order; an unrecognized mode raises.  The result carries the
actions map (as an ordered association list) and the controller with the
post-call adapter states. -/
def IndividualMultiAgent.act (m : IndividualMultiAgent) (obs : String → Int)
    (sample : Bool) (mode : Option String) :
    Except ActError (List (String × Int) × IndividualMultiAgent) :=
  if mode = some "eval" then
    let res := m.agent_ids.foldl
      (fun (acc : List (String × Int) × (String → Agent)) agent =>
        let r := eval_mode (acc.2 agent) (fun ag => ag.act (obs agent) sample)
        (acc.1 ++ [(agent, r.1)], Function.update acc.2 agent r.2))
      ([], m.agents)
    Except.ok (res.1, { m with agents := res.2 })
  else if mode = some "train" then
    let res := m.agent_ids.foldl
      (fun (acc : List (String × Int) × (String → Agent)) agent =>
        let r := train_mode (acc.2 agent) (fun ag => ag.act (obs agent) sample)
        (acc.1 ++ [(agent, r.1)], Function.update acc.2 agent r.2))
      ([], m.agents)
    Except.ok (res.1, { m with agents := res.2 })
  else if mode = none then
    let res := m.agent_ids.foldl
      (fun (acc : List (String × Int) × (String → Agent)) agent =>
        (acc.1 ++ [(agent, (acc.2 agent).act (obs agent) sample)], acc.2))
      ([], m.agents)
    Except.ok (res.1, { m with agents := res.2 })
  else
    Except.error ActError.invalidMode

/-- `SharedMultiAgent.act` (`agent_system.py:225-246`): the `eval` and
`mode=None` branches act with the single shared adapter once per agent id;
the `train` branch dereferences `self.agents[agent]`, an attribute that
`SharedMultiAgent` does not define, so its first loop iteration raises
`AttributeError` (with no agent ids the loop body never runs and the empty
actions dict is returned); any other mode raises the invalid-mode error. -/
def SharedMultiAgent.act (m : SharedMultiAgent) (obs : String → Int)
    (sample : Bool) (mode : Option String) :
    Except ActError (List (String × Int) × SharedMultiAgent) :=
  if mode = some "eval" then
    let res := m.agent_ids.foldl
      (fun (acc : List (String × Int) × Agent) agent =>
        let r := eval_mode acc.2 (fun ag => ag.act (obs agent) sample)
        (acc.1 ++ [(agent, r.1)], r.2))
      ([], m.agent)
    Except.ok (res.1, { m with agent := res.2 })
  else if mode = some "train" then
    match m.agent_ids with
    | [] => Except.ok ([], m)
    | _ :: _ => Except.error ActError.attributeError
  else if mode = none then
    let res := m.agent_ids.foldl
      (fun (acc : List (String × Int) × Agent) agent =>
        (acc.1 ++ [(agent, acc.2.act (obs agent) sample)], acc.2))
      ([], m.agent)
    Except.ok (res.1, { m with agent := res.2 })
  else
    Except.error ActError.invalidMode

/-- One underlying learner update call, as issued by the controllers'
`update` loops: the store passed to it, the logger it reports through
(identified by the agent id keying `loggers[agent]`), and the step. -/
structure UpdateCall where
  buffer : ReplayBuffer
  logger : String
  step : Nat
deriving DecidableEq, Repr

/-- `IndividualMultiAgent.update` (`agent_system.py:96-99`): one update per
agent against that agent's own store and logger. -/
def IndividualMultiAgent.update (m : IndividualMultiAgent) (step : Nat) :
    List UpdateCall :=
  m.agent_ids.map (fun agent => ⟨m.replay_buffers agent, agent, step⟩)

/-- `SharedMultiAgent.update` (`agent_system.py:249-254`): the single shared
learner is updated once per agent id, each call against the single shared
store, each logged through that agent id's logger. -/
def SharedMultiAgent.update (m : SharedMultiAgent) (step : Nat) :
    List UpdateCall :=
  m.agent_ids.map (fun agent => ⟨m.replay_buffer, agent, step⟩)

/-- `IndividualMultiAgent.add_to_buffer` (`agent_system.py:102-105`): per
agent id, in order, one `add` of that agent's components together with the
shared `done` / `done_no_max` scalars into that agent's store.  The second
component is the trace of the issued `add` calls, in call order. -/
def IndividualMultiAgent.add_to_buffer (m : IndividualMultiAgent)
    (obs actions rewards next_obs : String → Int) (done done_no_max : Bool) :
    IndividualMultiAgent × List (String × Transition) :=
  let res := m.agent_ids.foldl
    (fun (acc : (String → ReplayBuffer) × List (String × Transition)) agent =>
      let t : Transition :=
        ⟨obs agent, actions agent, rewards agent, next_obs agent, done, done_no_max⟩
      (Function.update acc.1 agent ((acc.1 agent).addT t), acc.2 ++ [(agent, t)]))
    (m.replay_buffers, [])
  ({ m with replay_buffers := res.1 }, res.2)

/-- `SharedMultiAgent.add_to_buffer` (`agent_system.py:257-260`): per agent
id, in order, one `add` into the single shared store, with the shared
`done` / `done_no_max` scalars. -/
def SharedMultiAgent.add_to_buffer (m : SharedMultiAgent)
    (obs actions rewards next_obs : String → Int) (done done_no_max : Bool) :
    SharedMultiAgent × List (String × Transition) :=
  let res := m.agent_ids.foldl
    (fun (acc : ReplayBuffer × List (String × Transition)) agent =>
      let t : Transition :=
        ⟨obs agent, actions agent, rewards agent, next_obs agent, done, done_no_max⟩
      (acc.1.addT t, acc.2 ++ [(agent, t)]))
    (m.replay_buffer, [])
  ({ m with replay_buffer := res.1 }, res.2)

/-- A saved Individual-variant checkpoint (`agent_system.py:156-197`): the
step counter and one raw-array archive file per agent id.  The adapter
parameter/optimizer blob (`checkpoint.pt`) is external tensor state and not
modelled; the saved archive carries no cursor and no full flag. -/
structure IndividualCheckpoint where
  step : Nat
  replay_data : String → SavedArrays

/-- A saved Shared-variant checkpoint (`agent_system.py:263-299`): the step
counter and one shared raw-array archive file. -/
structure SharedCheckpoint where
  step : Nat
  replay_data : SavedArrays

/-- `IndividualMultiAgent.save_checkpoint` (`agent_system.py:156-197`),
restricted to the modelled state: records the step and, per agent, the
store's six raw arrays. -/
def IndividualMultiAgent.save_checkpoint (m : IndividualMultiAgent)
    (step : Nat) : IndividualCheckpoint :=
  ⟨step, fun agent => (m.replay_buffers agent).savez⟩

/-- `SharedMultiAgent.save_checkpoint` (`agent_system.py:263-299`),
restricted to the modelled state. -/
def SharedMultiAgent.save_checkpoint (m : SharedMultiAgent)
    (step : Nat) : SharedCheckpoint :=
  ⟨step, m.replay_buffer.savez⟩

/-- The per-agent reconstruction loop of
`IndividualMultiAgent.load_checkpoint` (`agent_system.py:130-149`): for each
agent id in order, replay `step` rows of that agent's saved archive into
that agent's store; a row read out of range aborts the whole load. -/
def loadAgentBuffers (replay_data : String → SavedArrays) (step : Nat) :
    List String → (String → ReplayBuffer) → Option (String → ReplayBuffer)
  | [], bufs => some bufs
  | agent :: rest, bufs =>
      match (replay_data agent).replay 0 step (bufs agent) with
      | some b => loadAgentBuffers replay_data step rest (Function.update bufs agent b)
      | none => none

/-- `IndividualMultiAgent.load_checkpoint` (`agent_system.py:108-153`),
restricted to the modelled state: when the run mode is `train`, replay
`step` insertions per agent from the saved raw arrays through the store's
normal `add` path (otherwise the stores are untouched), and return the
saved step.  `none` models an uncaught exception during the replay. -/
def IndividualMultiAgent.load_checkpoint (m : IndividualMultiAgent)
    (cp : IndividualCheckpoint) : Option (IndividualMultiAgent × Nat) :=
  let step := cp.step
  if m.mode = "train" then
    (loadAgentBuffers cp.replay_data step m.agent_ids m.replay_buffers).map
      (fun bufs => ({ m with replay_buffers := bufs }, step))
  else
    some (m, step)

/-- `SharedMultiAgent.load_checkpoint` (`agent_system.py:302-343`),
restricted to the modelled state: when the run mode is `train`, replay
`step * len(agent_ids)` insertions from the single saved archive through
the shared store's normal `add` path, and return the saved step. -/
def SharedMultiAgent.load_checkpoint (m : SharedMultiAgent)
    (cp : SharedCheckpoint) : Option (SharedMultiAgent × Nat) :=
  let step := cp.step
  if m.mode = "train" then
    (cp.replay_data.replay 0 (step * m.agent_ids.length) m.replay_buffer).map
      (fun b => ({ m with replay_buffer := b }, step))
  else
    some (m, step)

/-- Both `load_checkpoint` implementations declare three required
parameters beyond `self`: `dir`, `checkpoint`, `device`
(`agent_system.py:108` and `agent_system.py:302`). -/
def load_checkpoint_param_count : Nat := 3

/-- The resume call in `Workspace.__init__` passes two arguments:
the checkpoints path and the checkpoint name (`run.py:87`). -/
def workspace_resume_arg_count : Nat := 2

/-- Outcome of a Python call checked for arity: `typeError` models the
`TypeError` raised before the callee body runs when the argument count does
not match the required parameter count. -/
inductive PyCallResult (α : Type) where
  | ok (val : α)
  | typeError
deriving DecidableEq, Repr

/-- A call of `load_checkpoint` on either controller variant with
`argCount` supplied arguments; `loaded` is the step the body would return
were it ever entered. -/
def call_load_checkpoint (argCount : Nat) (loaded : Nat) : PyCallResult Nat :=
  if argCount = load_checkpoint_param_count then PyCallResult.ok loaded
  else PyCallResult.typeError

/-- The step-counter part of `Workspace.__init__` (`run.py:83-87`):
`self.step = 0`, then, when `cfg.load_checkpoint` is set, `self.step` is
reassigned from the controller's `load_checkpoint` called with the two
arguments of `run.py:87`. -/
def Workspace.init_step (cfg_load_checkpoint : Bool) (loaded : Nat) :
    PyCallResult Nat :=
  if cfg_load_checkpoint then
    call_load_checkpoint workspace_resume_arg_count loaded
  else
    PyCallResult.ok 0

/-- `done = float(done)` (`run.py:150`), with floats carried as `Int`
(the only values that arise are 0 and 1). -/
def floatOfDone (done : Bool) : Int :=
  if done then 1 else 0

/-- `done_no_max = 0 if episode_step + 1 == self.env.horizon else done`
(`run.py:151`). -/
def Workspace.done_no_max (episode_step horizon : Nat) (done : Int) : Int :=
  if episode_step + 1 = horizon then 0 else done

/-- The configuration fields of `run.py`'s training loop that the claims
depend on. -/
structure TrainCfg where
  num_seed_steps : Nat
  num_train_steps : Nat
  eval_frequency : Nat
  horizon : Nat
deriving DecidableEq, Repr

/-- One controller `act` call: its `sample` flag and `mode` string. -/
structure ActCall where
  sample : Bool
  mode : Option String
deriving DecidableEq, Repr

/-- Where the actions of one loop iteration come from: per-agent uniform
draws from the action space (`run.py:137-139`) or a controller `act` call
(`run.py:141`). -/
inductive ActionSource where
  | randomUniform
  | controller (call : ActCall)
deriving DecidableEq, Repr

/-- The observable trace of one iteration of `Workspace.train`'s while loop
(`run.py:132-184`): the step and episode-step counters on entry, the action
source, every controller `act` call the iteration makes (data collection
first, then the calls made by a triggered `evaluate`, all of which use
`sample=False, mode="eval"` per `run.py:108`), the number of controller
`update` calls, and the `done` / `done_no_max` values passed to
`add_to_buffer`. -/
structure IterTrace where
  step : Nat
  episode_step : Nat
  actionSource : ActionSource
  actCalls : List ActCall
  updateCalls : Nat
  done : Bool
  done_no_max : Int
deriving DecidableEq, Repr

/-- One iteration of the training loop at global step `t` and episode step
`episode_step`.  `doneAt t` is the external environment's done signal for
this iteration's `env.step`; `evalActs t` is the (environment-determined)
number of `act` calls a triggered `evaluate` makes. -/
def trainIter (cfg : TrainCfg) (doneAt : Nat → Bool) (evalActs : Nat → Nat)
    (t episode_step : Nat) : IterTrace :=
  let source := if t < cfg.num_seed_steps then ActionSource.randomUniform
    else ActionSource.controller ⟨true, some "eval"⟩
  let updates := if t ≥ cfg.num_seed_steps then 1 else 0
  let d := doneAt t
  let dataCalls : List ActCall :=
    match source with
    | ActionSource.randomUniform => []
    | ActionSource.controller c => [c]
  let evalTriggered := d && decide (0 < t + 1) && ((t + 1) % cfg.eval_frequency == 0)
  let evalCalls : List ActCall :=
    if evalTriggered then List.replicate (evalActs t) ⟨false, some "eval"⟩ else []
  { step := t
    episode_step := episode_step
    actionSource := source
    actCalls := dataCalls ++ evalCalls
    updateCalls := updates
    done := d
    done_no_max := Workspace.done_no_max episode_step cfg.horizon (floatOfDone d) }

/-- The while loop of `Workspace.train` (`run.py:132-184`), unrolled on a
fuel argument: each iteration consumes one fuel unit, runs at entry step
`t`, increments the step, and resets the episode step on `done`.  Since
every iteration increments `self.step` by exactly one, fuel
`num_train_steps - t` makes the guard and the fuel run out together, which
is the exact semantics of the `while self.step < num_train_steps` loop. -/
def Workspace.trainAux (cfg : TrainCfg) (doneAt : Nat → Bool)
    (evalActs : Nat → Nat) : Nat → Nat → Nat → List IterTrace
  | 0, _, _ => []
  | fuel + 1, t, episode_step =>
      if t < cfg.num_train_steps then
        trainIter cfg doneAt evalActs t episode_step ::
          Workspace.trainAux cfg doneAt evalActs fuel (t + 1)
            (if doneAt t then 0 else episode_step + 1)
      else []

/-- `Workspace.train` started at step `t` and episode step `episode_step`:
the trace of all loop iterations until the step counter reaches
`num_train_steps`. -/
def Workspace.train (cfg : TrainCfg) (doneAt : Nat → Bool)
    (evalActs : Nat → Nat) (t episode_step : Nat) : List IterTrace :=
  Workspace.trainAux cfg doneAt evalActs (cfg.num_train_steps - t) t episode_step

theorem writeSeq_length (xs : List α) :
    ∀ (l : List α) (i : Nat), (writeSeq l i xs).length = l.length := by
  induction xs with
  | nil => intro l i; rfl
  | cons x xs ih =>
      intro l i
      show (writeSeq (l.set i x) (i + 1) xs).length = l.length
      rw [ih, List.length_set]

theorem writeSeq_get?_lt (xs : List α) :
    ∀ (l : List α) (i j : Nat), j < i → (writeSeq l i xs).get? j = l.get? j := by
  induction xs with
  | nil => intro l i j _; rfl
  | cons x xs ih =>
      intro l i j hj
      show (writeSeq (l.set i x) (i + 1) xs).get? j = l.get? j
      rw [ih _ _ _ (Nat.lt_succ_of_lt hj), List.get?_set_ne _ _ (Nat.ne_of_gt hj)]

theorem writeSeq_get? (xs : List α) :
    ∀ (l : List α) (i j : Nat), j < xs.length → i + xs.length ≤ l.length →
      (writeSeq l i xs).get? (i + j) = xs.get? j := by
  induction xs with
  | nil => intro l i j hj _; exact absurd hj (Nat.not_lt_zero j)
  | cons x xs ih =>
      intro l i j hj hlen
      show (writeSeq (l.set i x) (i + 1) xs).get? (i + j) = (x :: xs).get? j
      match j with
      | 0 =>
          show (writeSeq (l.set i x) (i + 1) xs).get? i = some x
          rw [writeSeq_get?_lt xs _ _ _ (Nat.lt_succ_self i)]
          exact List.get?_set_eq_of_lt x (by simp at hlen; omega)
      | j' + 1 =>
          have harg : i + (j' + 1) = (i + 1) + j' := by omega
          rw [harg, ih (l.set i x) (i + 1) j' (Nat.lt_of_succ_lt_succ hj)
            (by rw [List.length_set]; simp at hlen; omega)]
          rfl

theorem addList_spec (ts : List Transition) : ∀ (b : ReplayBuffer),
    b.obses.length = b.capacity → b.next_obses.length = b.capacity →
    b.actions.length = b.capacity → b.rewards.length = b.capacity →
    b.not_dones.length = b.capacity → b.not_dones_no_max.length = b.capacity →
    b.idx < b.capacity → b.idx + ts.length ≤ b.capacity →
    b.addList ts = ReplayBuffer.mk b.capacity
      (writeSeq b.obses b.idx (ts.map (fun t => t.obs)))
      (writeSeq b.next_obses b.idx (ts.map (fun t => t.next_obs)))
      (writeSeq b.actions b.idx (ts.map (fun t => t.action)))
      (writeSeq b.rewards b.idx (ts.map (fun t => t.reward)))
      (writeSeq b.not_dones b.idx (ts.map (fun t => !t.done)))
      (writeSeq b.not_dones_no_max b.idx (ts.map (fun t => !t.done_no_max)))
      ((b.idx + ts.length) % b.capacity)
      (b.full || (decide (0 < ts.length) && decide (b.idx + ts.length = b.capacity))) := by
  induction ts with
  | nil =>
      intro b _ _ _ _ _ _ hidx _
      simp only [ReplayBuffer.addList, List.foldl_nil, List.map_nil, writeSeq,
        List.length_nil, Nat.add_zero, Nat.mod_eq_of_lt hidx, Nat.lt_irrefl,
        decide_False, Bool.false_and, Bool.or_false]
  | cons t ts ih =>
      intro b h1 h2 h3 h4 h5 h6 hidx hle
      have hC : 0 < b.capacity := Nat.lt_of_le_of_lt (Nat.zero_le _) hidx
      have hkey : b.addList (t :: ts) = (b.addT t).addList ts := rfl
      rcases Nat.lt_or_ge (b.idx + 1) b.capacity with hlt | hge
      · have hidx' : (b.addT t).idx = b.idx + 1 := by
          simp [ReplayBuffer.addT, ReplayBuffer.add, Nat.mod_eq_of_lt hlt]
        have hfull' : (b.addT t).full = b.full := by
          simp [ReplayBuffer.addT, ReplayBuffer.add, Nat.mod_eq_of_lt hlt]
        have hspec := ih (b.addT t)
          (by simp [ReplayBuffer.addT, ReplayBuffer.add, List.length_set, h1])
          (by simp [ReplayBuffer.addT, ReplayBuffer.add, List.length_set, h2])
          (by simp [ReplayBuffer.addT, ReplayBuffer.add, List.length_set, h3])
          (by simp [ReplayBuffer.addT, ReplayBuffer.add, List.length_set, h4])
          (by simp [ReplayBuffer.addT, ReplayBuffer.add, List.length_set, h5])
          (by simp [ReplayBuffer.addT, ReplayBuffer.add, List.length_set, h6])
          (by rw [hidx']; exact hlt)
          (by rw [hidx']; show b.idx + 1 + ts.length ≤ b.capacity; simp at hle; omega)
        rw [hkey, hspec, hidx', hfull']
        have hcap : (b.addT t).capacity = b.capacity := rfl
        rw [hcap]
        have hobs : (b.addT t).obses = b.obses.set b.idx t.obs := rfl
        have hnobs : (b.addT t).next_obses = b.next_obses.set b.idx t.next_obs := rfl
        have hact : (b.addT t).actions = b.actions.set b.idx t.action := rfl
        have hrew : (b.addT t).rewards = b.rewards.set b.idx t.reward := rfl
        have hnd : (b.addT t).not_dones = b.not_dones.set b.idx (!t.done) := rfl
        have hndm : (b.addT t).not_dones_no_max = b.not_dones_no_max.set b.idx (!t.done_no_max) := rfl
        rw [hobs, hnobs, hact, hrew, hnd, hndm]
        have hws : ∀ {β : Type} (l : List β) (g : Transition → β),
            writeSeq l b.idx ((t :: ts).map g) = writeSeq (l.set b.idx (g t)) (b.idx + 1) (ts.map g) :=
          fun _ _ => rfl
        rw [hws b.obses (fun t => t.obs), hws b.next_obses (fun t => t.next_obs),
          hws b.actions (fun t => t.action), hws b.rewards (fun t => t.reward),
          hws b.not_dones (fun t => !t.done), hws b.not_dones_no_max (fun t => !t.done_no_max)]
        have hidxeq : (b.idx + 1 + ts.length) % b.capacity
            = (b.idx + (t :: ts).length) % b.capacity := by
          have : b.idx + 1 + ts.length = b.idx + (t :: ts).length := by
            simp; omega
          rw [this]
        rw [hidxeq]
        by_cases hk : ts.length = 0
        · have hne : b.idx + 1 ≠ b.capacity := Nat.ne_of_lt hlt
          simp [hk, hne]
        · have hpos : 0 < ts.length := Nat.pos_of_ne_zero hk
          have harg : b.idx + 1 + ts.length = b.idx + (t :: ts).length := by simp; omega
          simp [hpos, harg, Nat.lt_of_lt_of_le hpos (Nat.le_add_left _ _)]
      · have heq : b.idx + 1 = b.capacity := by omega
        have hk : ts.length = 0 := by simp at hle; omega
        have hts : ts = [] := List.eq_nil_of_length_eq_zero hk
        subst hts
        simp only [ReplayBuffer.addList, List.foldl_cons, List.foldl_nil, List.map_cons,
          List.map_nil, List.length_cons, List.length_nil]
        show b.addT t = _
        simp only [ReplayBuffer.addT, ReplayBuffer.add, writeSeq]
        have h0 : (b.idx + 1) % b.capacity = 0 := by rw [heq]; exact Nat.mod_self _
        have h1' : b.idx + (0 + 1) = b.capacity := by omega
        simp [h0, h1', heq]

theorem replay_eq_rows (d : SavedArrays) :
    ∀ (k i : Nat) (b : ReplayBuffer),
      d.replay i k b = (d.rows i k).map (fun l => b.addList l) := by
  intro k
  induction k with
  | zero => intro i b; rfl
  | succ k ih =>
      intro i b
      show (match d.readRow i with
            | some t => d.replay (i + 1) k (b.addT t)
            | none => none)
          = ((match d.readRow i with
              | some t => (d.rows (i + 1) k).map (fun l => t :: l)
              | none => none) : Option (List Transition)).map (fun l => b.addList l)
      cases hr : d.readRow i with
      | none => rfl
      | some t =>
          show d.replay (i + 1) k (b.addT t)
              = ((d.rows (i + 1) k).map (fun l => t :: l)).map (fun l => b.addList l)
          rw [ih (i + 1) (b.addT t)]
          cases d.rows (i + 1) k with
          | none => rfl
          | some l => rfl

theorem rows_length (d : SavedArrays) :
    ∀ (k i : Nat) (l : List Transition), d.rows i k = some l → l.length = k := by
  intro k
  induction k with
  | zero =>
      intro i l h
      have : some ([] : List Transition) = some l := h.symm ▸ rfl
      cases this; rfl
  | succ k ih =>
      intro i l h
      revert h
      show (match d.readRow i with
            | some t => (d.rows (i + 1) k).map (fun l => t :: l)
            | none => none) = some l → l.length = k + 1
      cases hr : d.readRow i with
      | none => intro h; cases h
      | some t =>
          cases hrows : d.rows (i + 1) k with
          | none => intro h; cases h
          | some l' =>
              intro h
              simp at h
              rw [← h, List.length_cons, ih (i + 1) l' hrows]

theorem rows_of_readRow (d : SavedArrays) :
    ∀ (ts : List Transition) (i : Nat),
      (∀ (j : Nat) (hj : j < ts.length), d.readRow (i + j) = some (ts.get ⟨j, hj⟩)) →
      d.rows i ts.length = some ts := by
  intro ts
  induction ts with
  | nil => intro i _; rfl
  | cons t ts ih =>
      intro i h
      have h0 : d.readRow i = some t := h 0 (Nat.succ_pos _)
      show (match d.readRow i with
            | some t => (d.rows (i + 1) ts.length).map (fun l => t :: l)
            | none => none) = some (t :: ts)
      rw [h0]
      have hrest : d.rows (i + 1) ts.length = some ts := by
        apply ih
        intro j hj
        have := h (j + 1) (Nat.succ_lt_succ hj)
        rwa [show i + (j + 1) = (i + 1) + j by omega] at this
      rw [hrest]
      rfl

theorem fresh_addList_spec (C : Nat) (hC : 0 < C) (ts : List Transition)
    (hk : ts.length ≤ C) :
    (ReplayBuffer.fresh C).addList ts = ReplayBuffer.mk C
      (writeSeq (List.replicate C 0) 0 (ts.map (fun t => t.obs)))
      (writeSeq (List.replicate C 0) 0 (ts.map (fun t => t.next_obs)))
      (writeSeq (List.replicate C 0) 0 (ts.map (fun t => t.action)))
      (writeSeq (List.replicate C 0) 0 (ts.map (fun t => t.reward)))
      (writeSeq (List.replicate C false) 0 (ts.map (fun t => !t.done)))
      (writeSeq (List.replicate C false) 0 (ts.map (fun t => !t.done_no_max)))
      (ts.length % C)
      (decide (0 < ts.length) && decide (ts.length = C)) := by
  have h := addList_spec ts (ReplayBuffer.fresh C)
    (by simp [ReplayBuffer.fresh]) (by simp [ReplayBuffer.fresh])
    (by simp [ReplayBuffer.fresh]) (by simp [ReplayBuffer.fresh])
    (by simp [ReplayBuffer.fresh]) (by simp [ReplayBuffer.fresh])
    (by simpa [ReplayBuffer.fresh] using hC)
    (by simpa [ReplayBuffer.fresh] using hk)
  simpa [ReplayBuffer.fresh] using h

theorem readRow_savez (C : Nat) (hC : 0 < C) (ts : List Transition)
    (hk : ts.length ≤ C) (j : Nat) (hj : j < ts.length) :
    ((ReplayBuffer.fresh C).addList ts).savez.readRow j = some (ts.get ⟨j, hj⟩) := by
  have hws : ∀ {β : Type} (init : List β) (g : Transition → β), init.length = C →
      (writeSeq init 0 (ts.map g)).get? j = some (g (ts.get ⟨j, hj⟩)) := by
    intro β init g hinit
    have h := writeSeq_get? (ts.map g) init 0 j (by simpa using hj)
      (by simp [hinit]; omega)
    rw [Nat.zero_add] at h
    rw [h, List.get?_map, List.get?_eq_get hj]
    rfl
  rw [fresh_addList_spec C hC ts hk]
  simp only [ReplayBuffer.savez, SavedArrays.readRow,
    hws (List.replicate C 0) (fun t => t.obs) (by simp),
    hws (List.replicate C 0) (fun t => t.next_obs) (by simp),
    hws (List.replicate C 0) (fun t => t.action) (by simp),
    hws (List.replicate C 0) (fun t => t.reward) (by simp),
    hws (List.replicate C false) (fun t => !t.done) (by simp),
    hws (List.replicate C false) (fun t => !t.done_no_max) (by simp),
    Bool.not_not]

theorem replay_roundtrip (C : Nat) (hC : 0 < C) (ts : List Transition)
    (hk : ts.length ≤ C) :
    ((ReplayBuffer.fresh C).addList ts).savez.replay 0 ts.length (ReplayBuffer.fresh C)
      = some ((ReplayBuffer.fresh C).addList ts) := by
  rw [replay_eq_rows]
  rw [rows_of_readRow _ ts 0 (fun j hj => by
    have h := readRow_savez C hC ts hk j hj
    rwa [show (0 : Nat) + j = j by omega])]
  rfl

theorem loadAgentBuffers_spec (replay_data : String → SavedArrays) (step : Nat) :
    ∀ (ids : List String) (bufs g : String → ReplayBuffer),
      ids.Nodup →
      (∀ a ∈ ids, (replay_data a).replay 0 step (bufs a) = some (g a)) →
      ∃ bufs', loadAgentBuffers replay_data step ids bufs = some bufs' ∧
        (∀ a ∈ ids, bufs' a = g a) ∧ (∀ a, a ∉ ids → bufs' a = bufs a) := by
  intro ids
  induction ids with
  | nil =>
      intro bufs g _ _
      exact ⟨bufs, rfl, by simp, fun a _ => rfl⟩
  | cons a rest ih =>
      intro bufs g hnd h
      have ha : (replay_data a).replay 0 step (bufs a) = some (g a) :=
        h a (List.mem_cons_self a rest)
      have hnd' := List.nodup_cons.mp hnd
      have hrest : ∀ x ∈ rest,
          (replay_data x).replay 0 step ((Function.update bufs a (g a)) x) = some (g x) := by
        intro x hx
        have hne : x ≠ a := fun he => hnd'.1 (he ▸ hx)
        rw [Function.update_noteq hne]
        exact h x (List.mem_cons_of_mem a hx)
      obtain ⟨bufs', hload, hmem, hout⟩ := ih (Function.update bufs a (g a)) g hnd'.2 hrest
      refine ⟨bufs', ?_, ?_, ?_⟩
      · show (match (replay_data a).replay 0 step (bufs a) with
              | some b => loadAgentBuffers replay_data step rest (Function.update bufs a b)
              | none => none) = some bufs'
        rw [ha]
        exact hload
      · intro x hx
        rcases List.mem_cons.mp hx with rfl | hx'
        · rw [hout x hnd'.1, Function.update_same]
        · exact hmem x hx'
      · intro x hx
        have hxa : x ≠ a := fun he => hx (he ▸ List.mem_cons_self a rest)
        have hxr : x ∉ rest := fun hr => hx (List.mem_cons_of_mem a hr)
        rw [hout x hxr, Function.update_noteq hxa]

/-- C1 (amended): for every capacity C ≥ 1 and every insertion count
k ∈ {0, 1, C−1, C} (the claim's set without C+5), saving a checkpoint after
k per-agent insertions and loading it into a fresh train-mode controller
reconstructs, for every agent, a store whose full state — hence its size,
cursor position and all six parallel arrays — exactly equals the store's
state at save time, and the load returns the saved step k.  (At k = C+5 the
load aborts instead; see the counterexample.) -/
theorem C1_individual_roundtrip (C : Nat) (hC : 0 < C) (k : Nat)
    (hk : k = 0 ∨ k = 1 ∨ k = C - 1 ∨ k = C)
    (ids : List String) (hids : ids.Nodup)
    (agents : String → Agent) (tss : String → List Transition)
    (hlen : ∀ a ∈ ids, (tss a).length = k) :
    ∃ m', IndividualMultiAgent.load_checkpoint
        ⟨ids, agents, fun _ => ReplayBuffer.fresh C, "train"⟩
        (IndividualMultiAgent.save_checkpoint
          ⟨ids, agents, fun a => (ReplayBuffer.fresh C).addList (tss a), "train"⟩ k)
        = some (m', k) ∧
      ∀ a ∈ ids,
        m'.replay_buffers a = (ReplayBuffer.fresh C).addList (tss a) ∧
        (m'.replay_buffers a).size = ((ReplayBuffer.fresh C).addList (tss a)).size ∧
        (m'.replay_buffers a).idx = ((ReplayBuffer.fresh C).addList (tss a)).idx ∧
        (m'.replay_buffers a).savez = ((ReplayBuffer.fresh C).addList (tss a)).savez := by
  have hkC : k ≤ C := by omega
  have hrep : ∀ a ∈ ids,
      (((ReplayBuffer.fresh C).addList (tss a)).savez).replay 0 k (ReplayBuffer.fresh C)
        = some ((ReplayBuffer.fresh C).addList (tss a)) := by
    intro a ha
    have h := replay_roundtrip C hC (tss a) (by rw [hlen a ha]; exact hkC)
    rwa [hlen a ha] at h
  obtain ⟨bufs', hload, hmem, _⟩ :=
    loadAgentBuffers_spec (fun a => ((ReplayBuffer.fresh C).addList (tss a)).savez) k
      ids (fun _ => ReplayBuffer.fresh C)
      (fun a => (ReplayBuffer.fresh C).addList (tss a)) hids hrep
  refine ⟨⟨ids, agents, bufs', "train"⟩, ?_, ?_⟩
  · have hres : (loadAgentBuffers (fun a => ((ReplayBuffer.fresh C).addList (tss a)).savez)
        k ids (fun _ => ReplayBuffer.fresh C)).map
        (fun bufs => ((⟨ids, agents, bufs, "train"⟩ : IndividualMultiAgent), k))
        = some ((⟨ids, agents, bufs', "train"⟩ : IndividualMultiAgent), k) := by
      rw [hload]
      rfl
    exact hres
  · intro a ha
    have h := hmem a ha
    refine ⟨h, ?_, ?_, ?_⟩ <;> simp [h]

/-- Witness for C1: capacity 3, agent list `["a"]`, three concrete
insertions (k = C), applied at each of the claim's surviving counts via
k = C. -/
theorem C1_individual_roundtrip_witness :
    ∃ m', IndividualMultiAgent.load_checkpoint
        ⟨["a"], fun _ => ⟨false, fun _ _ _ => 0⟩, fun _ => ReplayBuffer.fresh 3, "train"⟩
        (IndividualMultiAgent.save_checkpoint
          ⟨["a"], fun _ => ⟨false, fun _ _ _ => 0⟩,
            fun _ => (ReplayBuffer.fresh 3).addList
              [⟨1, 2, 3, 4, true, false⟩, ⟨5, 6, 7, 8, false, true⟩, ⟨9, 10, 11, 12, false, false⟩],
            "train"⟩ 3)
        = some (m', 3) ∧
      ∀ a ∈ ["a"],
        m'.replay_buffers a = (ReplayBuffer.fresh 3).addList
          [⟨1, 2, 3, 4, true, false⟩, ⟨5, 6, 7, 8, false, true⟩, ⟨9, 10, 11, 12, false, false⟩] ∧
        (m'.replay_buffers a).size = ((ReplayBuffer.fresh 3).addList
          [⟨1, 2, 3, 4, true, false⟩, ⟨5, 6, 7, 8, false, true⟩, ⟨9, 10, 11, 12, false, false⟩]).size ∧
        (m'.replay_buffers a).idx = ((ReplayBuffer.fresh 3).addList
          [⟨1, 2, 3, 4, true, false⟩, ⟨5, 6, 7, 8, false, true⟩, ⟨9, 10, 11, 12, false, false⟩]).idx ∧
        (m'.replay_buffers a).savez = ((ReplayBuffer.fresh 3).addList
          [⟨1, 2, 3, 4, true, false⟩, ⟨5, 6, 7, 8, false, true⟩, ⟨9, 10, 11, 12, false, false⟩]).savez :=
  C1_individual_roundtrip 3 (by decide) 3 (by omega) ["a"] (by decide)
    (fun _ => ⟨false, fun _ _ _ => 0⟩)
    (fun _ => [⟨1, 2, 3, 4, true, false⟩, ⟨5, 6, 7, 8, false, true⟩, ⟨9, 10, 11, 12, false, false⟩])
    (fun _ _ => rfl)

/-- Counterexample to C1 as stated: capacity C = 3, insertion count
k = C + 5 = 8.  The saved raw arrays have length C = 3, but the load loop
replays `step = 8` rows, so its fourth read is out of range and the load
aborts (`IndexError`) — no store is reconstructed at all, let alone an
equal one. -/
theorem C1_counterexample :
    IndividualMultiAgent.load_checkpoint
      ⟨["a"], fun _ => ⟨false, fun _ _ _ => 0⟩, fun _ => ReplayBuffer.fresh 3, "train"⟩
      (IndividualMultiAgent.save_checkpoint
        ⟨["a"], fun _ => ⟨false, fun _ _ _ => 0⟩,
          fun _ => (ReplayBuffer.fresh 3).addList
            ((List.range 8).map (fun i => ⟨Int.ofNat i, 0, 0, 0, false, false⟩)),
          "train"⟩ 8)
      = none ∧ (8 : Nat) = 3 + 5 :=
  ⟨rfl, rfl⟩

/-- C2: for every checkpoint loaded in train mode whose row reads succeed,
`load_checkpoint` reconstructs the store contents by replaying exactly
`step` insertions (Individual variant, per agent), respectively
`step × |agents|` insertions (Shared variant), taken from the saved raw
arrays in original order, each through the store's normal `add` operation
(`addList` is the fold of `add`), and returns `step`.  The saved archive
(`SavedArrays`) holds no cursor and no full flag that could be copied. -/
theorem C2_load_replays_through_add :
    (∀ (m : IndividualMultiAgent) (cp : IndividualCheckpoint)
       (L : String → List Transition),
       m.mode = "train" → m.agent_ids.Nodup →
       (∀ a ∈ m.agent_ids, (cp.replay_data a).rows 0 cp.step = some (L a)) →
       ∃ m', m.load_checkpoint cp = some (m', cp.step) ∧
         ∀ a ∈ m.agent_ids, (L a).length = cp.step ∧
           m'.replay_buffers a = (m.replay_buffers a).addList (L a)) ∧
    (∀ (m : SharedMultiAgent) (cp : SharedCheckpoint) (L : List Transition),
       m.mode = "train" →
       cp.replay_data.rows 0 (cp.step * m.agent_ids.length) = some L →
       ∃ m', m.load_checkpoint cp = some (m', cp.step) ∧
         L.length = cp.step * m.agent_ids.length ∧
         m'.replay_buffer = m.replay_buffer.addList L) := by
  constructor
  · intro m cp L hmode hnd hrows
    have hrep : ∀ a ∈ m.agent_ids,
        (cp.replay_data a).replay 0 cp.step (m.replay_buffers a)
          = some ((m.replay_buffers a).addList (L a)) := by
      intro a ha
      rw [replay_eq_rows, hrows a ha]
      rfl
    obtain ⟨bufs', hload, hmem, _⟩ :=
      loadAgentBuffers_spec cp.replay_data cp.step m.agent_ids m.replay_buffers
        (fun a => (m.replay_buffers a).addList (L a)) hnd hrep
    refine ⟨{ m with replay_buffers := bufs' }, ?_, ?_⟩
    · show (if m.mode = "train" then
          (loadAgentBuffers cp.replay_data cp.step m.agent_ids m.replay_buffers).map
            (fun bufs => ({ m with replay_buffers := bufs }, cp.step))
        else some (m, cp.step)) = _
      rw [if_pos hmode, hload]
      rfl
    · intro a ha
      exact ⟨rows_length (cp.replay_data a) cp.step 0 (L a) (hrows a ha), hmem a ha⟩
  · intro m cp L hmode hrows
    refine ⟨{ m with replay_buffer := m.replay_buffer.addList L }, ?_, ?_, rfl⟩
    · show (if m.mode = "train" then
          (cp.replay_data.replay 0 (cp.step * m.agent_ids.length) m.replay_buffer).map
            (fun b => ({ m with replay_buffer := b }, cp.step))
        else some (m, cp.step)) = _
      rw [if_pos hmode, replay_eq_rows, hrows]
      rfl
    · exact rows_length cp.replay_data (cp.step * m.agent_ids.length) 0 L hrows

/-- Witness for C2: an Individual controller with one agent and a one-row
checkpoint, and a Shared controller with two agents and a two-row
checkpoint at step 1. -/
theorem C2_load_replays_through_add_witness :
    (∃ m', IndividualMultiAgent.load_checkpoint
        ⟨["a"], fun _ => ⟨false, fun _ _ _ => 0⟩, fun _ => ReplayBuffer.fresh 1, "train"⟩
        ⟨1, fun _ => ⟨[5], [6], [7], [8], [true], [false]⟩⟩
        = some (m', 1) ∧
      ∀ a ∈ ["a"], ([(⟨5, 7, 8, 6, false, true⟩ : Transition)]).length = 1 ∧
        m'.replay_buffers a = (ReplayBuffer.fresh 1).addList [⟨5, 7, 8, 6, false, true⟩]) ∧
    (∃ m', SharedMultiAgent.load_checkpoint
        ⟨["a", "b"], ⟨false, fun _ _ _ => 0⟩, ReplayBuffer.fresh 2, "train"⟩
        ⟨1, ⟨[5, 9], [6, 10], [7, 11], [8, 12], [true, false], [false, true]⟩⟩
        = some (m', 1) ∧
      ([(⟨5, 7, 8, 6, false, true⟩ : Transition), ⟨9, 11, 12, 10, true, false⟩]).length = 1 * 2 ∧
      m'.replay_buffer = (ReplayBuffer.fresh 2).addList
        [⟨5, 7, 8, 6, false, true⟩, ⟨9, 11, 12, 10, true, false⟩]) :=
  ⟨C2_load_replays_through_add.1
      ⟨["a"], fun _ => ⟨false, fun _ _ _ => 0⟩, fun _ => ReplayBuffer.fresh 1, "train"⟩
      ⟨1, fun _ => ⟨[5], [6], [7], [8], [true], [false]⟩⟩
      (fun _ => [⟨5, 7, 8, 6, false, true⟩]) rfl (by decide) (fun _ _ => rfl),
    C2_load_replays_through_add.2
      ⟨["a", "b"], ⟨false, fun _ _ _ => 0⟩, ReplayBuffer.fresh 2, "train"⟩
      ⟨1, ⟨[5, 9], [6, 10], [7, 11], [8, 12], [true, false], [false, true]⟩⟩
      [⟨5, 7, 8, 6, false, true⟩, ⟨9, 11, 12, 10, true, false⟩] rfl rfl⟩

/-- C3: with checkpoint loading enabled, the resume path of
`Workspace.__init__` (`run.py:87`) calls `load_checkpoint` with two
arguments while both variant implementations require three (`dir`,
`checkpoint`, `device`; `agent_system.py:108`, `302`), so the call raises
`TypeError` before any state is restored and the resume never completes. -/
theorem C3_resume_never_completes (flag : Bool) (loaded : Nat)
    (h : flag = true) :
    Workspace.init_step flag loaded = PyCallResult.typeError ∧
    workspace_resume_arg_count ≠ load_checkpoint_param_count := by
  subst h
  exact ⟨rfl, by decide⟩

/-- Witness for C3 at a concrete enabled-resume configuration. -/
theorem C3_resume_never_completes_witness :
    Workspace.init_step true 7 = PyCallResult.typeError ∧
    workspace_resume_arg_count ≠ load_checkpoint_param_count :=
  C3_resume_never_completes true 7 rfl

/-- C4 (failing input): `SharedMultiAgent.act` with `mode="train"` and at
least one agent id dereferences the undefined attribute `self.agents`
(`agent_system.py:236`) and aborts with `AttributeError` instead of acting
under training-behavior scoping. -/
theorem C4_shared_train_mode_crashes (m : SharedMultiAgent)
    (obs : String → Int) (sample : Bool) (h : m.agent_ids ≠ []) :
    m.act obs sample (some "train") = Except.error ActError.attributeError := by
  cases hm : m.agent_ids with
  | nil => exact absurd hm h
  | cons a rest => simp [SharedMultiAgent.act, hm]

/-- Witness for C4's failing input: a concrete shared controller with one
agent id. -/
theorem C4_shared_train_mode_crashes_witness :
    SharedMultiAgent.act
      ⟨["a"], ⟨false, fun _ _ _ => 0⟩, ReplayBuffer.fresh 1, "train"⟩
      (fun _ => 0) true (some "train") = Except.error ActError.attributeError :=
  C4_shared_train_mode_crashes
    ⟨["a"], ⟨false, fun _ _ _ => 0⟩, ReplayBuffer.fresh 1, "train"⟩
    (fun _ => 0) true (by decide)

/-- C5: for both controller variants, a mode string outside
{none, train, eval} makes `act` fail with the invalid-mode error (the
`raise` of `agent_system.py:91` / `244`), a distinct error kind, without
returning any actions. -/
theorem C5_invalid_mode (mI : IndividualMultiAgent) (mS : SharedMultiAgent)
    (obs : String → Int) (sample : Bool) (s : String)
    (h1 : s ≠ "train") (h2 : s ≠ "eval") :
    mI.act obs sample (some s) = Except.error ActError.invalidMode ∧
    mS.act obs sample (some s) = Except.error ActError.invalidMode := by
  constructor
  · simp [IndividualMultiAgent.act, h1, h2]
  · simp [SharedMultiAgent.act, h1, h2]

/-- Witness for C5 at the concrete unrecognized mode string "foo". -/
theorem C5_invalid_mode_witness :
    IndividualMultiAgent.act
      ⟨["a"], fun _ => ⟨false, fun _ _ _ => 0⟩, fun _ => ReplayBuffer.fresh 1, "train"⟩
      (fun _ => 0) true (some "foo") = Except.error ActError.invalidMode ∧
    SharedMultiAgent.act
      ⟨["a"], ⟨false, fun _ _ _ => 0⟩, ReplayBuffer.fresh 1, "train"⟩
      (fun _ => 0) true (some "foo") = Except.error ActError.invalidMode :=
  C5_invalid_mode
    ⟨["a"], fun _ => ⟨false, fun _ _ _ => 0⟩, fun _ => ReplayBuffer.fresh 1, "train"⟩
    ⟨["a"], ⟨false, fun _ _ _ => 0⟩, ReplayBuffer.fresh 1, "train"⟩
    (fun _ => 0) true "foo" (by decide) (by decide)

theorem mem_trainAux (cfg : TrainCfg) (doneAt : Nat → Bool) (evalActs : Nat → Nat) :
    ∀ (fuel t es : Nat) (tr : IterTrace),
      tr ∈ Workspace.trainAux cfg doneAt evalActs fuel t es →
      ∃ t' es', tr = trainIter cfg doneAt evalActs t' es' := by
  intro fuel
  induction fuel with
  | zero => intro t es tr h; simp [Workspace.trainAux] at h
  | succ n ih =>
      intro t es tr h
      simp only [Workspace.trainAux] at h
      by_cases hlt : t < cfg.num_train_steps
      · rw [if_pos hlt] at h
        rcases List.mem_cons.mp h with rfl | h'
        · exact ⟨t, es, rfl⟩
        · exact ih _ _ tr h'
      · rw [if_neg hlt] at h
        exact absurd h (List.not_mem_nil tr)

theorem trainAux_steps (cfg : TrainCfg) (doneAt : Nat → Bool) (evalActs : Nat → Nat) :
    ∀ (fuel t es : Nat), cfg.num_train_steps - t ≤ fuel →
      (Workspace.trainAux cfg doneAt evalActs fuel t es).map IterTrace.step
        = List.range' t (cfg.num_train_steps - t) := by
  intro fuel
  induction fuel with
  | zero =>
      intro t es h
      rw [Nat.le_zero.mp h]
      rfl
  | succ n ih =>
      intro t es h
      simp only [Workspace.trainAux]
      by_cases hlt : t < cfg.num_train_steps
      · rw [if_pos hlt, List.map_cons, ih (t + 1) _ (by omega)]
        rw [show cfg.num_train_steps - t = (cfg.num_train_steps - (t + 1)) + 1 by omega,
          List.range'_succ]
        rfl
      · rw [if_neg hlt, show cfg.num_train_steps - t = 0 by omega]
        rfl

/-- C8: the training loop started at step 0 visits exactly the steps
0, …, num_train_steps − 1 and then stops; while the step is below the
seed-step count actions are the per-agent uniform random draws and no
update is issued; from the seed-step count on, actions come from the
controller (`act(sample=True, mode="eval")`) and exactly one update call is
issued per step (`run.py:132-145`). -/
theorem C8_training_loop (cfg : TrainCfg) (doneAt : Nat → Bool)
    (evalActs : Nat → Nat) :
    (Workspace.train cfg doneAt evalActs 0 0).map IterTrace.step
      = List.range cfg.num_train_steps ∧
    ∀ tr ∈ Workspace.train cfg doneAt evalActs 0 0,
      (tr.step < cfg.num_seed_steps →
        tr.actionSource = ActionSource.randomUniform ∧ tr.updateCalls = 0) ∧
      (cfg.num_seed_steps ≤ tr.step →
        tr.actionSource = ActionSource.controller ⟨true, some "eval"⟩ ∧
        tr.updateCalls = 1) := by
  constructor
  · rw [Workspace.train, trainAux_steps cfg doneAt evalActs _ 0 0 (by omega),
      Nat.sub_zero, List.range_eq_range']
  · intro tr h
    obtain ⟨t, es, rfl⟩ := mem_trainAux cfg doneAt evalActs _ 0 0 tr h
    have hstep : (trainIter cfg doneAt evalActs t es).step = t := rfl
    constructor
    · intro hlt
      rw [hstep] at hlt
      constructor
      · show (if t < cfg.num_seed_steps then ActionSource.randomUniform
            else ActionSource.controller ⟨true, some "eval"⟩) = ActionSource.randomUniform
        rw [if_pos hlt]
      · show (if t ≥ cfg.num_seed_steps then 1 else 0) = 0
        rw [if_neg (by omega)]
    · intro hge
      rw [hstep] at hge
      constructor
      · show (if t < cfg.num_seed_steps then ActionSource.randomUniform
            else ActionSource.controller ⟨true, some "eval"⟩)
            = ActionSource.controller ⟨true, some "eval"⟩
        rw [if_neg (by omega)]
      · show (if t ≥ cfg.num_seed_steps then 1 else 0) = 1
        rw [if_pos hge]

/-- Witness for C8 at a concrete configuration (seed steps 1, total 2). -/
theorem C8_training_loop_witness :
    (Workspace.train ⟨1, 2, 5, 10⟩ (fun _ => false) (fun _ => 0) 0 0).map IterTrace.step
      = List.range 2 ∧
    (trainIter ⟨1, 2, 5, 10⟩ (fun _ => false) (fun _ => 0) 1 1).actionSource
      = ActionSource.controller ⟨true, some "eval"⟩ ∧
    (trainIter ⟨1, 2, 5, 10⟩ (fun _ => false) (fun _ => 0) 1 1).updateCalls = 1 :=
  ⟨(C8_training_loop ⟨1, 2, 5, 10⟩ (fun _ => false) (fun _ => 0)).1,
    ((C8_training_loop ⟨1, 2, 5, 10⟩ (fun _ => false) (fun _ => 0)).2 _ (by decide)).2
      (by decide)⟩

/-- C6: in every training-loop iteration, if the episode length reaches
the horizon exactly (`episode_step + 1 = horizon`) while the environment
reports done, the `done_no_max` passed to `add_to_buffer` is 0; if done
arrives strictly before the horizon, `done_no_max` equals the (floatified)
done value (`run.py:149-154`). -/
theorem C6_done_no_max_truncation (cfg : TrainCfg) (doneAt : Nat → Bool)
    (evalActs : Nat → Nat) (t0 es0 : Nat) (tr : IterTrace)
    (h : tr ∈ Workspace.train cfg doneAt evalActs t0 es0) :
    (tr.episode_step + 1 = cfg.horizon ∧ tr.done = true → tr.done_no_max = 0) ∧
    (tr.episode_step + 1 < cfg.horizon ∧ tr.done = true →
      tr.done_no_max = floatOfDone tr.done) := by
  obtain ⟨t, es, rfl⟩ := mem_trainAux cfg doneAt evalActs _ t0 es0 tr h
  have hes : (trainIter cfg doneAt evalActs t es).episode_step = es := rfl
  constructor
  · rintro ⟨hh, _⟩
    rw [hes] at hh
    show Workspace.done_no_max es cfg.horizon (floatOfDone (doneAt t)) = 0
    rw [Workspace.done_no_max, if_pos hh]
  · rintro ⟨hh, _⟩
    rw [hes] at hh
    show Workspace.done_no_max es cfg.horizon (floatOfDone (doneAt t))
        = floatOfDone (trainIter cfg doneAt evalActs t es).done
    rw [Workspace.done_no_max, if_neg (by omega)]
    rfl

/-- Witness for C6: a run with horizon 2 whose second iteration terminates
exactly at the horizon (`done_no_max = 0`), and a run with horizon 3 whose
second iteration terminates strictly before it (`done_no_max = done`). -/
theorem C6_done_no_max_truncation_witness :
    (trainIter ⟨0, 3, 5, 2⟩ (fun t => t == 1) (fun _ => 0) 1 1).done_no_max = 0 ∧
    (trainIter ⟨0, 3, 5, 3⟩ (fun t => t == 1) (fun _ => 0) 1 1).done_no_max
      = floatOfDone (trainIter ⟨0, 3, 5, 3⟩ (fun t => t == 1) (fun _ => 0) 1 1).done :=
  ⟨(C6_done_no_max_truncation ⟨0, 3, 5, 2⟩ (fun t => t == 1) (fun _ => 0) 0 0 _
      (by decide)).1 (by decide),
    (C6_done_no_max_truncation ⟨0, 3, 5, 3⟩ (fun t => t == 1) (fun _ => 0) 0 0 _
      (by decide)).2 (by decide)⟩

theorem trainIter_actCalls (cfg : TrainCfg) (doneAt : Nat → Bool)
    (evalActs : Nat → Nat) (t es : Nat) :
    (trainIter cfg doneAt evalActs t es).actCalls
      = (if t < cfg.num_seed_steps then ([] : List ActCall)
          else [⟨true, some "eval"⟩])
        ++ (if doneAt t && decide (0 < t + 1) && ((t + 1) % cfg.eval_frequency == 0)
            then List.replicate (evalActs t) ⟨false, some "eval"⟩ else []) := by
  by_cases hlt : t < cfg.num_seed_steps <;> simp [trainIter, hlt]

/-- C10: every controller `act` call made by the training loop — the data
collection call of any step at or past the seed-step count, and every call
inside a triggered `evaluate` — uses `mode="eval"`; the data collection
call uses `sample=true`; no act call ever uses `mode="train"`
(`run.py:140-141`, `run.py:108`). -/
theorem C10_act_mode_in_loop (cfg : TrainCfg) (doneAt : Nat → Bool)
    (evalActs : Nat → Nat) (tr : IterTrace)
    (h : tr ∈ Workspace.train cfg doneAt evalActs 0 0) :
    (cfg.num_seed_steps ≤ tr.step →
      tr.actionSource = ActionSource.controller ⟨true, some "eval"⟩ ∧
      (⟨true, some "eval"⟩ : ActCall) ∈ tr.actCalls) ∧
    (∀ c ∈ tr.actCalls, c.mode = some "eval") ∧
    (∀ c ∈ tr.actCalls, c.mode ≠ some "train") := by
  obtain ⟨t, es, rfl⟩ := mem_trainAux cfg doneAt evalActs _ 0 0 tr h
  have hstep : (trainIter cfg doneAt evalActs t es).step = t := rfl
  have hmode : ∀ c ∈ (trainIter cfg doneAt evalActs t es).actCalls,
      c.mode = some "eval" := by
    intro c hc
    rw [trainIter_actCalls] at hc
    rcases List.mem_append.mp hc with h1 | h2
    · by_cases hlt : t < cfg.num_seed_steps
      · rw [if_pos hlt] at h1
        exact absurd h1 (List.not_mem_nil c)
      · rw [if_neg hlt] at h1
        rw [List.mem_singleton.mp h1]
    · by_cases he : (doneAt t && decide (0 < t + 1)
          && ((t + 1) % cfg.eval_frequency == 0)) = true
      · rw [if_pos he] at h2
        rw [List.eq_of_mem_replicate h2]
      · rw [if_neg he] at h2
        exact absurd h2 (List.not_mem_nil c)
  refine ⟨?_, hmode, ?_⟩
  · intro hge
    rw [hstep] at hge
    constructor
    · show (if t < cfg.num_seed_steps then ActionSource.randomUniform
          else ActionSource.controller ⟨true, some "eval"⟩)
          = ActionSource.controller ⟨true, some "eval"⟩
      rw [if_neg (by omega)]
    · rw [trainIter_actCalls, if_neg (by omega)]
      exact List.mem_append_left _ (List.mem_singleton.mpr rfl)
  · intro c hc
    rw [hmode c hc]
    simp

/-- Witness for C10 at a concrete post-seed iteration. -/
theorem C10_act_mode_in_loop_witness :
    ((trainIter ⟨1, 3, 5, 10⟩ (fun _ => false) (fun _ => 0) 1 1).actionSource
        = ActionSource.controller ⟨true, some "eval"⟩ ∧
      (⟨true, some "eval"⟩ : ActCall)
        ∈ (trainIter ⟨1, 3, 5, 10⟩ (fun _ => false) (fun _ => 0) 1 1).actCalls) ∧
    (∀ c ∈ (trainIter ⟨1, 3, 5, 10⟩ (fun _ => false) (fun _ => 0) 1 1).actCalls,
      c.mode = some "eval") ∧
    (∀ c ∈ (trainIter ⟨1, 3, 5, 10⟩ (fun _ => false) (fun _ => 0) 1 1).actCalls,
      c.mode ≠ some "train") :=
  have h := C10_act_mode_in_loop ⟨1, 3, 5, 10⟩ (fun _ => false) (fun _ => 0) _ (by decide)
  ⟨h.1 (by decide), h.2.1, h.2.2⟩

/-- C7: one `update` call on the Shared controller with m agent ids issues
exactly m updates of the single shared learner, each against the single
shared store, each logged through a different agent id's logger
(`agent_system.py:249-254`). -/
theorem C7_shared_update_amortization (m : SharedMultiAgent) (step : Nat)
    (h : m.agent_ids.Nodup) :
    (m.update step).length = m.agent_ids.length ∧
    (∀ c ∈ m.update step, c.buffer = m.replay_buffer ∧ c.step = step) ∧
    (m.update step).map UpdateCall.logger = m.agent_ids ∧
    ((m.update step).map UpdateCall.logger).Nodup := by
  have hmap : (m.update step).map UpdateCall.logger = m.agent_ids := by
    rw [SharedMultiAgent.update, List.map_map]
    exact List.map_id m.agent_ids
  refine ⟨?_, ?_, hmap, ?_⟩
  · rw [SharedMultiAgent.update, List.length_map]
  · intro c hc
    rw [SharedMultiAgent.update, List.mem_map] at hc
    obtain ⟨a, _, rfl⟩ := hc
    exact ⟨rfl, rfl⟩
  · rw [hmap]
    exact h

/-- Witness for C7 with a two-agent shared controller. -/
theorem C7_shared_update_amortization_witness :
    (SharedMultiAgent.update
        ⟨["a", "b"], ⟨false, fun _ _ _ => 0⟩, ReplayBuffer.fresh 2, "train"⟩ 5).length
      = (["a", "b"] : List String).length ∧
    (∀ c ∈ SharedMultiAgent.update
        ⟨["a", "b"], ⟨false, fun _ _ _ => 0⟩, ReplayBuffer.fresh 2, "train"⟩ 5,
      c.buffer = ReplayBuffer.fresh 2 ∧ c.step = 5) ∧
    (SharedMultiAgent.update
        ⟨["a", "b"], ⟨false, fun _ _ _ => 0⟩, ReplayBuffer.fresh 2, "train"⟩ 5).map
      UpdateCall.logger = ["a", "b"] ∧
    ((SharedMultiAgent.update
        ⟨["a", "b"], ⟨false, fun _ _ _ => 0⟩, ReplayBuffer.fresh 2, "train"⟩ 5).map
      UpdateCall.logger).Nodup :=
  C7_shared_update_amortization
    ⟨["a", "b"], ⟨false, fun _ _ _ => 0⟩, ReplayBuffer.fresh 2, "train"⟩ 5 (by decide)

theorem indivFold_trace (obs actions rewards next_obs : String → Int)
    (done done_no_max : Bool) :
    ∀ (ids : List String)
      (p : (String → ReplayBuffer) × List (String × Transition)),
      (ids.foldl
        (fun (acc2 : (String → ReplayBuffer) × List (String × Transition)) agent =>
          let t : Transition :=
            ⟨obs agent, actions agent, rewards agent, next_obs agent, done, done_no_max⟩
          (Function.update acc2.1 agent ((acc2.1 agent).addT t), acc2.2 ++ [(agent, t)]))
        p).2
      = p.2 ++ ids.map (fun a =>
          (a, ⟨obs a, actions a, rewards a, next_obs a, done, done_no_max⟩)) := by
  intro ids
  induction ids with
  | nil => intro p; simp
  | cons a rest ih =>
      intro p
      rw [List.foldl_cons, ih]
      simp

theorem indivFold_bufs_not_mem (obs actions rewards next_obs : String → Int)
    (done done_no_max : Bool) :
    ∀ (ids : List String)
      (p : (String → ReplayBuffer) × List (String × Transition)) (x : String),
      x ∉ ids →
      (ids.foldl
        (fun (acc2 : (String → ReplayBuffer) × List (String × Transition)) agent =>
          let t : Transition :=
            ⟨obs agent, actions agent, rewards agent, next_obs agent, done, done_no_max⟩
          (Function.update acc2.1 agent ((acc2.1 agent).addT t), acc2.2 ++ [(agent, t)]))
        p).1 x = p.1 x := by
  intro ids
  induction ids with
  | nil => intro p x _; rfl
  | cons a rest ih =>
      intro p x hx
      have hxa : x ≠ a := fun he => hx (he ▸ List.mem_cons_self a rest)
      have hxr : x ∉ rest := fun hr => hx (List.mem_cons_of_mem a hr)
      rw [List.foldl_cons, ih _ _ hxr]
      exact Function.update_noteq hxa _ _

theorem indivFold_bufs_mem (obs actions rewards next_obs : String → Int)
    (done done_no_max : Bool) :
    ∀ (ids : List String)
      (p : (String → ReplayBuffer) × List (String × Transition)) (x : String),
      ids.Nodup → x ∈ ids →
      (ids.foldl
        (fun (acc2 : (String → ReplayBuffer) × List (String × Transition)) agent =>
          let t : Transition :=
            ⟨obs agent, actions agent, rewards agent, next_obs agent, done, done_no_max⟩
          (Function.update acc2.1 agent ((acc2.1 agent).addT t), acc2.2 ++ [(agent, t)]))
        p).1 x
      = (p.1 x).addT ⟨obs x, actions x, rewards x, next_obs x, done, done_no_max⟩ := by
  intro ids
  induction ids with
  | nil => intro p x _ hx; exact absurd hx (List.not_mem_nil x)
  | cons a rest ih =>
      intro p x hnd hx
      have hnd' := List.nodup_cons.mp hnd
      rw [List.foldl_cons]
      rcases List.mem_cons.mp hx with rfl | hx'
      · rw [indivFold_bufs_not_mem obs actions rewards next_obs done done_no_max
          rest _ x hnd'.1]
        exact Function.update_same x _ p.1
      · have hxa : x ≠ a := fun he => hnd'.1 (he ▸ hx')
        rw [ih _ x hnd'.2 hx']
        have hupd : (Function.update p.1 a ((p.1 a).addT
            ⟨obs a, actions a, rewards a, next_obs a, done, done_no_max⟩)) x = p.1 x :=
          Function.update_noteq hxa _ _
        exact congrArg (fun bb : ReplayBuffer =>
          bb.addT ⟨obs x, actions x, rewards x, next_obs x, done, done_no_max⟩) hupd

theorem sharedFold_trace (obs actions rewards next_obs : String → Int)
    (done done_no_max : Bool) :
    ∀ (ids : List String) (p : ReplayBuffer × List (String × Transition)),
      (ids.foldl
        (fun (acc2 : ReplayBuffer × List (String × Transition)) agent =>
          let t : Transition :=
            ⟨obs agent, actions agent, rewards agent, next_obs agent, done, done_no_max⟩
          (acc2.1.addT t, acc2.2 ++ [(agent, t)]))
        p).2
      = p.2 ++ ids.map (fun a =>
          (a, ⟨obs a, actions a, rewards a, next_obs a, done, done_no_max⟩)) := by
  intro ids
  induction ids with
  | nil => intro p; simp
  | cons a rest ih =>
      intro p
      rw [List.foldl_cons, ih]
      simp

theorem sharedFold_buf (obs actions rewards next_obs : String → Int)
    (done done_no_max : Bool) :
    ∀ (ids : List String) (p : ReplayBuffer × List (String × Transition)),
      (ids.foldl
        (fun (acc2 : ReplayBuffer × List (String × Transition)) agent =>
          let t : Transition :=
            ⟨obs agent, actions agent, rewards agent, next_obs agent, done, done_no_max⟩
          (acc2.1.addT t, acc2.2 ++ [(agent, t)]))
        p).1
      = p.1.addList (ids.map (fun a =>
          ⟨obs a, actions a, rewards a, next_obs a, done, done_no_max⟩)) := by
  intro ids
  induction ids with
  | nil => intro p; rfl
  | cons a rest ih =>
      intro p
      rw [List.foldl_cons, ih]
      rfl

/-- C9: `add_to_buffer` writes, per agent id and in agent-id order, exactly
one transition built from that agent's observation/action/reward components
and the shared scalar `done` / `done_no_max` values — into that agent's own
store (Individual, `agent_system.py:102-105`) or into the single shared
store (Shared, `agent_system.py:257-260`). -/
theorem C9_add_to_buffer_per_agent :
    (∀ (m : IndividualMultiAgent) (obs actions rewards next_obs : String → Int)
       (done done_no_max : Bool), m.agent_ids.Nodup →
       (m.add_to_buffer obs actions rewards next_obs done done_no_max).2
         = m.agent_ids.map (fun a =>
             (a, ⟨obs a, actions a, rewards a, next_obs a, done, done_no_max⟩)) ∧
       ∀ a ∈ m.agent_ids,
         (m.add_to_buffer obs actions rewards next_obs done done_no_max).1.replay_buffers a
           = (m.replay_buffers a).addT
               ⟨obs a, actions a, rewards a, next_obs a, done, done_no_max⟩) ∧
    (∀ (m : SharedMultiAgent) (obs actions rewards next_obs : String → Int)
       (done done_no_max : Bool),
       (m.add_to_buffer obs actions rewards next_obs done done_no_max).2
         = m.agent_ids.map (fun a =>
             (a, ⟨obs a, actions a, rewards a, next_obs a, done, done_no_max⟩)) ∧
       (m.add_to_buffer obs actions rewards next_obs done done_no_max).1.replay_buffer
         = m.replay_buffer.addList (m.agent_ids.map (fun a =>
             ⟨obs a, actions a, rewards a, next_obs a, done, done_no_max⟩))) := by
  constructor
  · intro m obs actions rewards next_obs done done_no_max hnd
    constructor
    · exact (indivFold_trace obs actions rewards next_obs done done_no_max
        m.agent_ids (m.replay_buffers, [])).trans (by simp)
    · intro a ha
      exact indivFold_bufs_mem obs actions rewards next_obs done done_no_max
        m.agent_ids (m.replay_buffers, []) a hnd ha
  · intro m obs actions rewards next_obs done done_no_max
    constructor
    · exact (sharedFold_trace obs actions rewards next_obs done done_no_max
        m.agent_ids (m.replay_buffer, [])).trans (by simp)
    · exact sharedFold_buf obs actions rewards next_obs done done_no_max
        m.agent_ids (m.replay_buffer, [])

/-- Witness for C9 with concrete two-agent controllers of both variants. -/
theorem C9_add_to_buffer_per_agent_witness :
    ((IndividualMultiAgent.add_to_buffer
        ⟨["a", "b"], fun _ => ⟨false, fun _ _ _ => 0⟩, fun _ => ReplayBuffer.fresh 2, "train"⟩
        (fun _ => 1) (fun _ => 2) (fun _ => 3) (fun _ => 4) true false).2
      = (["a", "b"] : List String).map (fun a => (a, ⟨1, 2, 3, 4, true, false⟩)) ∧
      ∀ a ∈ (["a", "b"] : List String),
        (IndividualMultiAgent.add_to_buffer
          ⟨["a", "b"], fun _ => ⟨false, fun _ _ _ => 0⟩, fun _ => ReplayBuffer.fresh 2, "train"⟩
          (fun _ => 1) (fun _ => 2) (fun _ => 3) (fun _ => 4) true false).1.replay_buffers a
        = ((ReplayBuffer.fresh 2).addT ⟨1, 2, 3, 4, true, false⟩)) ∧
    ((SharedMultiAgent.add_to_buffer
        ⟨["a", "b"], ⟨false, fun _ _ _ => 0⟩, ReplayBuffer.fresh 4, "train"⟩
        (fun _ => 1) (fun _ => 2) (fun _ => 3) (fun _ => 4) true false).2
      = (["a", "b"] : List String).map (fun a => (a, ⟨1, 2, 3, 4, true, false⟩)) ∧
      (SharedMultiAgent.add_to_buffer
        ⟨["a", "b"], ⟨false, fun _ _ _ => 0⟩, ReplayBuffer.fresh 4, "train"⟩
        (fun _ => 1) (fun _ => 2) (fun _ => 3) (fun _ => 4) true false).1.replay_buffer
      = (ReplayBuffer.fresh 4).addList
          ((["a", "b"] : List String).map (fun _ => ⟨1, 2, 3, 4, true, false⟩))) :=
  ⟨C9_add_to_buffer_per_agent.1
      ⟨["a", "b"], fun _ => ⟨false, fun _ _ _ => 0⟩, fun _ => ReplayBuffer.fresh 2, "train"⟩
      (fun _ => 1) (fun _ => 2) (fun _ => 3) (fun _ => 4) true false (by decide),
    C9_add_to_buffer_per_agent.2
      ⟨["a", "b"], ⟨false, fun _ _ _ => 0⟩, ReplayBuffer.fresh 4, "train"⟩
      (fun _ => 1) (fun _ => 2) (fun _ => 3) (fun _ => 4) true false⟩
